import Mathlib

/-!
Verification of the social-media API slice of the repository
(`social_media_api/`): follow graph, posts, comments, likes,
notifications and the feed, as implemented in
`accounts/models.py`, `accounts/views.py`, `posts/models.py`,
`posts/views.py`, `posts/serializers.py`, `posts/permissions.py`,
`notifications/models.py`, `notifications/services.py` and
`notifications/views.py`.

The embedding models users by their primary keys (`Nat`); database
tables become lists carried in a single state record `St`; each HTTP
handler becomes a function from a state and request data to a
response (status code plus detail message) and a successor state.
Timestamps are natural numbers (`St.now` is the clock value stamped
on a row created in the current request).
-/

namespace SocialMedia

/-- A row of `notifications.models.Notification`.  `contentType` and
`objectId` embed the generic foreign key (`content_type`, `object_id`);
`metadata` is the JSON payload, modelled as an optional association
list of string key/value pairs. -/
structure Notification where
  id : Nat
  recipient : Nat
  actor : Nat
  verb : String
  contentType : Option String
  objectId : Option Nat
  metadata : Option (List (String × String))
  is_read : Bool
  timestamp : Nat
deriving DecidableEq, Repr

/-- A row of `posts.models.Post` (author FK, title, content,
`created_at`).  `updated_at` plays no role in any claim and is
omitted. -/
structure Post where
  id : Nat
  author : Nat
  title : String
  content : String
  createdAt : Nat
deriving DecidableEq, Repr

/-- A row of `posts.models.Comment` (post FK, author FK, content,
`created_at`). -/
structure Comment where
  id : Nat
  postId : Nat
  author : Nat
  content : String
  createdAt : Nat
deriving DecidableEq, Repr

/-- The database state: user pks, the `following` many-to-many table
(pairs `(follower, followed)`), posts, comments, the `Like` table
(pairs `(user, post)`), and notifications, together with the id
counters and the request clock. -/
structure St where
  users : List Nat
  follows : List (Nat × Nat)
  posts : List Post
  comments : List Comment
  likes : List (Nat × Nat)
  notifications : List Notification
  nextNotifId : Nat
  nextCommentId : Nat
  now : Nat
deriving DecidableEq, Repr

/-- An HTTP response: status code and the `detail` message of the
body (messages that interpolate a username keep only their fixed
part, since the embedding identifies users by pk). -/
structure Resp where
  status : Nat
  detail : String
deriving DecidableEq, Repr

/-- `CustomUser.is_following` (`accounts/models.py`):
`self.following.filter(pk=user.pk).exists()`. -/
def is_following (s : St) (a b : Nat) : Bool :=
  s.follows.contains (a, b)

/-- `CustomUser.follow` (`accounts/models.py`): raises `ValueError`
on self-follow, otherwise `self.following.add(user)` (a no-op when
the edge already exists). -/
def CustomUser_follow (s : St) (self other : Nat) : Except String St :=
  if other = self then .error "Users cannot follow themselves."
  else if s.follows.contains (self, other) then .ok s
  else .ok { s with follows := s.follows ++ [(self, other)] }

/-- `CustomUser.unfollow` (`accounts/models.py`):
`self.following.remove(user)`, a no-op when the edge is absent. -/
def CustomUser_unfollow (s : St) (self other : Nat) : St :=
  { s with follows := s.follows.filter (fun e => e != (self, other)) }

/-- `FollowUserView.post` (`accounts/views.py`): 404 when the target
pk does not exist, 400 on self-follow, 200 when already following,
otherwise adds the edge and returns 201.  Note that the handler
creates no Notification on any branch. -/
def followPost (s : St) (requester target : Nat) : Resp × St :=
  if ¬ target ∈ s.users then (⟨404, "Not found."⟩, s)
  else if target = requester then (⟨400, "You cannot follow yourself."⟩, s)
  else if s.follows.contains (requester, target) then
    (⟨200, "Already following this user."⟩, s)
  else
    (⟨201, "You are now following this user."⟩,
      { s with follows := s.follows ++ [(requester, target)] })

/-- `UnfollowUserView.post` (`accounts/views.py`): 404 on unknown
target pk, 400 on self-unfollow (checked before anything else), 400
when not currently following, otherwise removes the edge and
returns 200. -/
def unfollowPost (s : St) (requester target : Nat) : Resp × St :=
  if ¬ target ∈ s.users then (⟨404, "Not found."⟩, s)
  else if target = requester then (⟨400, "You cannot unfollow yourself."⟩, s)
  else if ¬ s.follows.contains (requester, target) then
    (⟨400, "You are not following this user."⟩, s)
  else
    (⟨200, "You have unfollowed this user."⟩,
      { s with follows := s.follows.filter (fun e => e != (requester, target)) })

/-- `create_notification` (`notifications/services.py`): skips
creation when `skip_self` and the recipient is the actor, otherwise
persists a row, resolving the target to a (content type, object id)
pair. -/
def create_notification (s : St) (recipient actor : Nat) (verb : String)
    (target : Option (String × Nat)) (metadata : Option (List (String × String)))
    (skip_self : Bool := true) : St :=
  if skip_self && recipient == actor then s
  else
    { s with
      notifications := s.notifications ++
        [⟨s.nextNotifId, recipient, actor, verb, target.map Prod.fst,
          target.map Prod.snd, metadata, false, s.now⟩],
      nextNotifId := s.nextNotifId + 1 }

/-- `PostLikeView.post` (`posts/views.py`): 404 on unknown post;
`Like.objects.get_or_create` (a no-op returning 200 when the row
already exists); on creation, a Notification to the author with verb
`liked your post` unless the requester is the author, and a 201
response. -/
def likePost (s : St) (requester pid : Nat) : Resp × St :=
  match s.posts.find? (fun p => p.id == pid) with
  | none => (⟨404, "Not found."⟩, s)
  | some post =>
    if s.likes.contains (requester, pid) then
      (⟨200, "Post already liked."⟩, s)
    else
      let s1 := { s with likes := s.likes ++ [(requester, pid)] }
      let s2 :=
        if post.author ≠ requester then
          { s1 with
            notifications := s1.notifications ++
              [⟨s1.nextNotifId, post.author, requester, "liked your post",
                some "post", some post.id,
                some [("post_id", toString post.id), ("post_title", post.title)],
                false, s1.now⟩],
            nextNotifId := s1.nextNotifId + 1 }
        else s1
      (⟨201, "Post liked."⟩, s2)

/-- `PostUnlikeView.post` (`posts/views.py`): 404 on unknown post;
deletes the requester's Like rows for the post, returning 200 when a
row was deleted and 400 (`You have not liked this post.`) when there
was none. -/
def unlikePost (s : St) (requester pid : Nat) : Resp × St :=
  match s.posts.find? (fun p => p.id == pid) with
  | none => (⟨404, "Not found."⟩, s)
  | some _ =>
    if s.likes.contains (requester, pid) then
      (⟨200, "Post unliked."⟩,
        { s with likes := s.likes.filter (fun e => e != (requester, pid)) })
    else (⟨400, "You have not liked this post."⟩, s)

/-- Python's `not value.strip()` test used by the serializer
validators: true exactly when the string is empty or consists of
whitespace only. -/
def isBlank (s : String) : Bool :=
  s.data.all Char.isWhitespace

/-- `CommentViewSet.perform_create` plus the serializer validation
(`posts/views.py`, `posts/serializers.py`): the `post` field must
reference an existing post (400 otherwise), `validate_content`
rejects content that is empty after stripping whitespace; on success
the comment is saved and `create_notification` is called with the
post's author as recipient, verb `commented on your post` and the
post as target (skipped for self-comments by `skip_self`). -/
def createComment (s : St) (requester pid : Nat) (content : String) : Resp × St :=
  match s.posts.find? (fun p => p.id == pid) with
  | none => (⟨400, "Invalid pk - object does not exist."⟩, s)
  | some post =>
    if isBlank content then (⟨400, "Comment content cannot be empty."⟩, s)
    else
      let s1 := { s with
        comments := s.comments ++ [⟨s.nextCommentId, pid, requester, content, s.now⟩],
        nextCommentId := s.nextCommentId + 1 }
      (⟨201, "Created."⟩,
        create_notification s1 post.author requester "commented on your post"
          (some ("post", post.id))
          (some [("comment_id", toString s.nextCommentId), ("post_id", toString pid)]))

/-- `IsAuthenticatedOrReadOnly` (DRF): safe methods are always
allowed; unsafe methods require an authenticated user. -/
def isAuthenticatedOrReadOnly (isSafe : Bool) (requester : Option Nat) : Bool :=
  isSafe || requester.isSome

/-- `IsOwnerOrReadOnly.has_object_permission`
(`posts/permissions.py`): safe methods are allowed; otherwise the
object must carry an `author` and it must equal the requesting
user (an anonymous requester never equals an author). -/
def isOwnerOrReadOnly (isSafe : Bool) (requester : Option Nat)
    (author : Option Nat) : Bool :=
  if isSafe then true
  else
    match author, requester with
    | some a, some r => a == r
    | _, _ => false

/-- `PUT/PATCH /posts/{id}` through `PostViewSet` (`posts/views.py`):
the DRF pipeline checks `IsAuthenticatedOrReadOnly` (401 for an
anonymous writer), resolves the object (404), checks
`IsOwnerOrReadOnly` (403), validates title and content non-blank
(`PostSerializer`), then saves. -/
def updatePost (s : St) (requester : Option Nat) (pid : Nat)
    (title content : String) : Resp × St :=
  if ¬ isAuthenticatedOrReadOnly false requester then
    (⟨401, "Authentication credentials were not provided."⟩, s)
  else
    match s.posts.find? (fun p => p.id == pid) with
    | none => (⟨404, "Not found."⟩, s)
    | some p =>
      if ¬ isOwnerOrReadOnly false requester (some p.author) then
        (⟨403, "You can only modify content that you created."⟩, s)
      else if isBlank title || isBlank content then
        (⟨400, "Validation error."⟩, s)
      else
        (⟨200, "Updated."⟩,
          { s with posts := s.posts.map (fun q =>
              if q.id == pid then { q with title := title, content := content } else q) })

/-- `DELETE /posts/{id}` through `PostViewSet`: same permission
pipeline; on success the post row is deleted and its comments and
likes cascade (`on_delete=CASCADE`); notifications reference targets
generically and do not cascade. -/
def deletePost (s : St) (requester : Option Nat) (pid : Nat) : Resp × St :=
  if ¬ isAuthenticatedOrReadOnly false requester then
    (⟨401, "Authentication credentials were not provided."⟩, s)
  else
    match s.posts.find? (fun p => p.id == pid) with
    | none => (⟨404, "Not found."⟩, s)
    | some p =>
      if ¬ isOwnerOrReadOnly false requester (some p.author) then
        (⟨403, "You can only modify content that you created."⟩, s)
      else
        (⟨204, ""⟩,
          { s with
            posts := s.posts.filter (fun q => q.id != pid),
            comments := s.comments.filter (fun c => c.postId != pid),
            likes := s.likes.filter (fun e => e.2 != pid) })

/-- `PUT/PATCH /comments/{id}` through `CommentViewSet`: same
pipeline as posts, with `CommentSerializer.validate_content`. -/
def updateComment (s : St) (requester : Option Nat) (cid : Nat)
    (content : String) : Resp × St :=
  if ¬ isAuthenticatedOrReadOnly false requester then
    (⟨401, "Authentication credentials were not provided."⟩, s)
  else
    match s.comments.find? (fun c => c.id == cid) with
    | none => (⟨404, "Not found."⟩, s)
    | some c =>
      if ¬ isOwnerOrReadOnly false requester (some c.author) then
        (⟨403, "You can only modify content that you created."⟩, s)
      else if isBlank content then
        (⟨400, "Comment content cannot be empty."⟩, s)
      else
        (⟨200, "Updated."⟩,
          { s with comments := s.comments.map (fun d =>
              if d.id == cid then { d with content := content } else d) })

/-- `DELETE /comments/{id}` through `CommentViewSet`. -/
def deleteComment (s : St) (requester : Option Nat) (cid : Nat) : Resp × St :=
  if ¬ isAuthenticatedOrReadOnly false requester then
    (⟨401, "Authentication credentials were not provided."⟩, s)
  else
    match s.comments.find? (fun c => c.id == cid) with
    | none => (⟨404, "Not found."⟩, s)
    | some c =>
      if ¬ isOwnerOrReadOnly false requester (some c.author) then
        (⟨403, "You can only modify content that you created."⟩, s)
      else
        (⟨204, ""⟩, { s with comments := s.comments.filter (fun d => d.id != cid) })

/-- The feed ordering `order_by('-created_at')`: `p` comes no later
than `q` when `p` was created no earlier than `q` (newest first). -/
def postDescLE (p q : Post) : Prop := q.createdAt ≤ p.createdAt

instance : DecidableRel postDescLE :=
  fun p q => inferInstanceAs (Decidable (q.createdAt ≤ p.createdAt))

instance : IsTotal Post postDescLE :=
  ⟨fun p q => Nat.le_total q.createdAt p.createdAt⟩

instance : IsTrans Post postDescLE :=
  ⟨fun _ _ _ h h2 => Nat.le_trans h2 h⟩

/-- `FeedView.get_queryset` (`posts/views.py`):
`Post.objects.filter(author__in=user.following).order_by('-created_at')`. -/
def feed (s : St) (u : Nat) : List Post :=
  (s.posts.filter (fun p => s.follows.contains (u, p.author))).insertionSort postDescLE

/-- The notification list ordering `order_by('is_read', '-timestamp')`:
unread (`is_read = false`) rows first, and within equal read state
newer rows first. -/
def notifLE (a b : Notification) : Prop :=
  (a.is_read = false ∧ b.is_read = true) ∨
    (a.is_read = b.is_read ∧ b.timestamp ≤ a.timestamp)

instance : DecidableRel notifLE := fun a b =>
  inferInstanceAs (Decidable ((a.is_read = false ∧ b.is_read = true) ∨
    (a.is_read = b.is_read ∧ b.timestamp ≤ a.timestamp)))

instance : IsTotal Notification notifLE :=
  ⟨fun a b => by
    rcases ha : a.is_read <;> rcases hb : b.is_read
    · exact (Nat.le_total b.timestamp a.timestamp).imp
        (fun h => Or.inr ⟨by rw [ha, hb], h⟩) (fun h => Or.inr ⟨by rw [ha, hb], h⟩)
    · exact Or.inl (Or.inl ⟨ha, hb⟩)
    · exact Or.inr (Or.inl ⟨hb, ha⟩)
    · exact (Nat.le_total b.timestamp a.timestamp).imp
        (fun h => Or.inr ⟨by rw [ha, hb], h⟩) (fun h => Or.inr ⟨by rw [ha, hb], h⟩)⟩

instance : IsTrans Notification notifLE :=
  ⟨fun a b c hab hbc => by
    rcases hab with ⟨ha, hb⟩ | ⟨hab, htab⟩
    · rcases hbc with ⟨hb2, hc⟩ | ⟨hbc, _⟩
      · rw [hb] at hb2; cases hb2
      · exact Or.inl ⟨ha, hbc ▸ hb⟩
    · rcases hbc with ⟨hb2, hc⟩ | ⟨hbc, htbc⟩
      · exact Or.inl ⟨hab ▸ hb2, hc⟩
      · exact Or.inr ⟨hab.trans hbc, Nat.le_trans htbc htab⟩⟩

/-- `NotificationListView.get_queryset` (`notifications/views.py`):
`Notification.objects.for_user(user).order_by('is_read', '-timestamp')`. -/
def list_for (s : St) (u : Nat) : List Notification :=
  (s.notifications.filter (fun n => n.recipient == u)).insertionSort notifLE

/-- The `unread_count` added by `NotificationListView.list`:
`Notification.objects.for_user(user).unread().count()`. -/
def unread_count (s : St) (u : Nat) : Nat :=
  (s.notifications.filter (fun n => n.recipient == u && n.is_read == false)).length

/-- The filter used by `NotificationMarkReadView.get_object`: the pk
must match and the row must belong to the requester. -/
def markReadPred (requester pk : Nat) (n : Notification) : Bool :=
  n.id == pk && n.recipient == requester

/-- `Notification.mark_read` (`notifications/models.py`) applied to
the row with the requested pk: sets `is_read` and saves only that
field, leaving every other field and every other row untouched. -/
def setRead (requester pk : Nat) (n : Notification) : Notification :=
  if markReadPred requester pk n then { n with is_read := true } else n

/-- `NotificationMarkReadView.post` (`notifications/views.py`):
`get_object_or_404` over the requester-scoped queryset (404 when no
notification with this pk belongs to the requester), then
`Notification.mark_read` sets `is_read` saving only that field. -/
def markRead (s : St) (requester pk : Nat) : Resp × St :=
  match s.notifications.find? (markReadPred requester pk) with
  | none => (⟨404, "Not found."⟩, s)
  | some _ =>
    (⟨200, "OK"⟩,
      { s with notifications := s.notifications.map (setRead requester pk) })

end SocialMedia

namespace SocialMedia

/-- A small concrete database: users 1 and 2, everything else empty. -/
def state0 : St :=
  { users := [1, 2], follows := [], posts := [], comments := [], likes := [],
    notifications := [], nextNotifId := 0, nextCommentId := 0, now := 0 }

/-- `state0` after user 1 has followed user 2. -/
def state1 : St := { state0 with follows := [(1, 2)] }

/-- C1: the claim says a successful first-time follow emits exactly one
Notification(recipient=target, actor=actor, verb="started following you").
The handler `FollowUserView.post` adds the edge and returns 201 but never
creates a Notification: starting from a store with no notifications, the
first follow of user 2 by user 1 succeeds yet leaves the notification
table empty, contradicting the claim (and the repository's own test
`accounts/tests.py::test_user_can_follow_another_user`). -/
theorem C1_first_follow_emits_no_notification :
    (followPost state0 1 2).1.status = 201 ∧
    (followPost state0 1 2).2.notifications.length = 0 := by
  constructor <;> rfl

/-- C2: following yourself fails with a 400 validation error and changes
nothing; the first follow of a distinct existing user returns 201
("created") and makes `is_following` true; repeating the follow returns
200 without changing the state, and exactly one `(A, B)` edge exists. -/
theorem C2_follow_self_rejected_and_follow_idempotent (s : St) (A B : Nat)
    (hA : A ∈ s.users) (hB : B ∈ s.users) (hne : A ≠ B)
    (h0 : (A, B) ∉ s.follows) :
    (followPost s A A).1.status = 400 ∧ (followPost s A A).2 = s ∧
    (followPost s A B).1.status = 201 ∧
    is_following (followPost s A B).2 A B = true ∧
    (followPost (followPost s A B).2 A B).1.status = 200 ∧
    (followPost (followPost s A B).2 A B).2 = (followPost s A B).2 ∧
    (followPost (followPost s A B).2 A B).2.follows.count (A, B) = 1 := by
  have hBA : ¬ (B = A) := fun h => hne h.symm
  have e1 : followPost s A A = (⟨400, "You cannot follow yourself."⟩, s) := by
    simp [followPost, hA]
  have e2 : followPost s A B =
      (⟨201, "You are now following this user."⟩,
        { s with follows := s.follows ++ [(A, B)] }) := by
    simp [followPost, hB, hBA, h0]
  have e3 : followPost { s with follows := s.follows ++ [(A, B)] } A B =
      (⟨200, "Already following this user."⟩,
        { s with follows := s.follows ++ [(A, B)] }) := by
    simp [followPost, hB, hBA]
  refine ⟨by rw [e1], by rw [e1], by rw [e2], ?_, ?_, ?_, ?_⟩
  · rw [e2]; simp [is_following]
  · rw [e2]; rw [e3]
  · rw [e2]; rw [e3]
  · rw [e2]; rw [e3]
    simp [List.count_append, List.count_eq_zero.mpr h0]

/-- Witness for C2 at users 1 and 2 of `state0`. -/
theorem C2_follow_self_rejected_and_follow_idempotent_witness :
    (1 ∈ state0.users ∧ 2 ∈ state0.users ∧ (1 : Nat) ≠ 2 ∧
      ((1, 2) : Nat × Nat) ∉ state0.follows) ∧
    (followPost state0 1 2).1.status = 201 ∧
    (followPost (followPost state0 1 2).2 1 2).2.follows.count (1, 2) = 1 :=
  ⟨⟨by decide, by decide, by decide, by decide⟩,
    (C2_follow_self_rejected_and_follow_idempotent state0 1 2 (by decide)
      (by decide) (by decide) (by decide)).2.2.1,
    (C2_follow_self_rejected_and_follow_idempotent state0 1 2 (by decide)
      (by decide) (by decide) (by decide)).2.2.2.2.2.2⟩

/-- C6: for distinct users, unfollowing without an existing edge fails
with a 400 validation error and leaves the state unchanged; when the
edge exists, unfollowing returns 200, removes exactly that edge, and
`is_following` becomes false. -/
theorem C6_unfollow_requires_edge (s : St) (A B : Nat)
    (hB : B ∈ s.users) (hne : A ≠ B) :
    ((A, B) ∉ s.follows →
      unfollowPost s A B = (⟨400, "You are not following this user."⟩, s)) ∧
    ((A, B) ∈ s.follows →
      (unfollowPost s A B).1.status = 200 ∧
      (unfollowPost s A B).2 =
        { s with follows := s.follows.filter (fun e => e != (A, B)) } ∧
      is_following (unfollowPost s A B).2 A B = false) := by
  have hBA : ¬ (B = A) := fun h => hne h.symm
  constructor
  · intro h0
    simp [unfollowPost, hB, hBA, h0]
  · intro h1
    have e : unfollowPost s A B =
        (⟨200, "You have unfollowed this user."⟩,
          { s with follows := s.follows.filter (fun e => e != (A, B)) }) := by
      simp [unfollowPost, hB, hBA, h1]
    refine ⟨by rw [e], by rw [e], ?_⟩
    rw [e]; simp [is_following]

/-- Witness for C6 at `state1`, where user 1 follows user 2. -/
theorem C6_unfollow_requires_edge_witness :
    (2 ∈ state1.users ∧ (1 : Nat) ≠ 2 ∧ ((1, 2) : Nat × Nat) ∈ state1.follows) ∧
    (unfollowPost state1 1 2).1.status = 200 ∧
    is_following (unfollowPost state1 1 2).2 1 2 = false :=
  ⟨⟨by decide, by decide, by decide⟩,
    ((C6_unfollow_requires_edge state1 1 2 (by decide) (by decide)).2 (by decide)).1,
    ((C6_unfollow_requires_edge state1 1 2 (by decide) (by decide)).2 (by decide)).2.2⟩

/-- C10: unfollowing yourself always fails with 400 and the message
"You cannot unfollow yourself.", whatever the current follow graph
(the self check precedes the edge-existence check, which would answer
"You are not following this user." instead); the state is unchanged. -/
theorem C10_unfollow_self_always_rejected (s : St) (A : Nat) (hA : A ∈ s.users) :
    unfollowPost s A A = (⟨400, "You cannot unfollow yourself."⟩, s) := by
  simp [unfollowPost, hA]

/-- Witness for C10 at `state1` (no (1,1) edge exists, yet the response
is the self-unfollow message, not the missing-edge one). -/
theorem C10_unfollow_self_always_rejected_witness :
    1 ∈ state1.users ∧
    unfollowPost state1 1 1 = (⟨400, "You cannot unfollow yourself."⟩, state1) :=
  ⟨by decide, C10_unfollow_self_always_rejected state1 1 (by decide)⟩

end SocialMedia

namespace SocialMedia

/-- The notification produced by `PostLikeView.post`, as a predicate:
recipient is the post's author, the given user is the actor and the
verb is `liked your post`. -/
def likedNotif (author u : Nat) (n : Notification) : Bool :=
  n.recipient == author && n.actor == u && n.verb == "liked your post"

/-- C3: unliking without a prior like fails with 400 and leaves the
state unchanged; liking twice stores exactly one Like row, the repeat
returns 200 without changing the state, and the notifications with
verb `liked your post` from this user to the author number one, or
zero when the user is the post's author; unliking after the like
returns 200 and removes the Like row. -/
theorem C3_like_idempotent_and_unlike_requires_like (s : St) (U : Nat) (p : Post)
    (hp : s.posts.find? (fun q => q.id == p.id) = some p)
    (h0 : (U, p.id) ∉ s.likes)
    (hn : s.notifications.countP (likedNotif p.author U) = 0) :
    unlikePost s U p.id = (⟨400, "You have not liked this post."⟩, s) ∧
    (likePost s U p.id).1.status = 201 ∧
    (likePost (likePost s U p.id).2 U p.id).1.status = 200 ∧
    (likePost (likePost s U p.id).2 U p.id).2 = (likePost s U p.id).2 ∧
    (likePost s U p.id).2.likes.count (U, p.id) = 1 ∧
    (likePost s U p.id).2.notifications.countP (likedNotif p.author U) =
      (if U = p.author then 0 else 1) ∧
    (unlikePost (likePost s U p.id).2 U p.id).1.status = 200 ∧
    (unlikePost (likePost s U p.id).2 U p.id).2.likes.count (U, p.id) = 0 := by
  have e0 : unlikePost s U p.id = (⟨400, "You have not liked this post."⟩, s) := by
    simp [unlikePost, hp, h0]
  by_cases ha : p.author = U
  · have ha2 : U = p.author := ha.symm
    have e1 : likePost s U p.id =
        (⟨201, "Post liked."⟩, { s with likes := s.likes ++ [(U, p.id)] }) := by
      simp [likePost, hp, h0, ha]
    refine ⟨e0, by rw [e1], ?_, ?_, ?_, ?_, ?_, ?_⟩
    · rw [e1]; simp [likePost, hp]
    · rw [e1]; simp [likePost, hp]
    · rw [e1]; simp [List.count_append, List.count_eq_zero.mpr h0]
    · rw [e1, if_pos ha2]; exact hn
    · rw [e1]; simp [unlikePost, hp]
    · rw [e1]; simp [unlikePost, hp]
      exact List.count_eq_zero.mpr (by simp)
  · have ha2 : ¬ U = p.author := fun h => ha h.symm
    have e1 : likePost s U p.id =
        (⟨201, "Post liked."⟩,
          { s with
            likes := s.likes ++ [(U, p.id)],
            notifications := s.notifications ++
              [⟨s.nextNotifId, p.author, U, "liked your post",
                some "post", some p.id,
                some [("post_id", toString p.id), ("post_title", p.title)],
                false, s.now⟩],
            nextNotifId := s.nextNotifId + 1 }) := by
      simp [likePost, hp, h0, ha]
    refine ⟨e0, by rw [e1], ?_, ?_, ?_, ?_, ?_, ?_⟩
    · rw [e1]; simp [likePost, hp]
    · rw [e1]; simp [likePost, hp]
    · rw [e1]; simp [List.count_append, List.count_eq_zero.mpr h0]
    · rw [e1]; simp [ha2, List.countP_append, hn, likedNotif]
    · rw [e1]; simp [unlikePost, hp]
    · rw [e1]; simp [unlikePost, hp]
      exact List.count_eq_zero.mpr (by simp)

/-- A post authored by user 2. -/
def post1 : Post :=
  { id := 10, author := 2, title := "Hello", content := "World", createdAt := 5 }

/-- A state whose content store holds `post1`. -/
def stateP : St :=
  { users := [1, 2], follows := [], posts := [post1], comments := [], likes := [],
    notifications := [], nextNotifId := 0, nextCommentId := 0, now := 7 }

/-- Witness for C3: user 1 likes user 2's post in `stateP`. -/
theorem C3_like_idempotent_and_unlike_requires_like_witness :
    (stateP.posts.find? (fun q => q.id == post1.id) = some post1 ∧
      ((1, post1.id) : Nat × Nat) ∉ stateP.likes ∧
      stateP.notifications.countP (likedNotif post1.author 1) = 0) ∧
    (likePost stateP 1 post1.id).1.status = 201 ∧
    (likePost stateP 1 post1.id).2.notifications.countP (likedNotif post1.author 1) =
      (if 1 = post1.author then 0 else 1) :=
  ⟨⟨by decide, by decide, by decide⟩,
    (C3_like_idempotent_and_unlike_requires_like stateP 1 post1 (by decide)
      (by decide) (by decide)).2.1,
    (C3_like_idempotent_and_unlike_requires_like stateP 1 post1 (by decide)
      (by decide) (by decide)).2.2.2.2.2.1⟩

/-- C4: creating a comment with blank (empty or whitespace-only)
content fails with a 400 validation error and changes nothing; with
non-blank content it succeeds with 201 and, when the commenter is not
the post's author, appends exactly one notification with the post's
author as recipient, the commenter as actor, verb
`commented on your post` and the post as target; when the commenter
is the author, the notification store is unchanged. -/
theorem C4_create_comment_validation_and_notification (s : St) (A : Nat) (p : Post)
    (content : String)
    (hp : s.posts.find? (fun q => q.id == p.id) = some p) :
    (isBlank content = true →
      createComment s A p.id content = (⟨400, "Comment content cannot be empty."⟩, s)) ∧
    (isBlank content = false →
      (createComment s A p.id content).1.status = 201 ∧
      (A = p.author → (createComment s A p.id content).2.notifications = s.notifications) ∧
      (A ≠ p.author → (createComment s A p.id content).2.notifications =
        s.notifications ++
          [⟨s.nextNotifId, p.author, A, "commented on your post",
            some "post", some p.id,
            some [("comment_id", toString s.nextCommentId), ("post_id", toString p.id)],
            false, s.now⟩])) := by
  constructor
  · intro hb
    simp [createComment, hp, hb]
  · intro hb
    refine ⟨by simp [createComment, hp, hb, create_notification], ?_, ?_⟩
    · intro hA
      simp [createComment, hp, hb, create_notification, hA]
    · intro hA
      have hA2 : ¬ p.author = A := fun h => hA h.symm
      simp [createComment, hp, hb, create_notification, hA2]

/-- Witness for C4: user 1 comments on user 2's post in `stateP`,
and a whitespace-only comment is rejected. -/
theorem C4_create_comment_validation_and_notification_witness :
    (stateP.posts.find? (fun q => q.id == post1.id) = some post1 ∧
      isBlank " " = true ∧ isBlank "Nice" = false ∧ (1 : Nat) ≠ post1.author) ∧
    createComment stateP 1 post1.id " " =
      (⟨400, "Comment content cannot be empty."⟩, stateP) ∧
    (createComment stateP 1 post1.id "Nice").2.notifications =
      stateP.notifications ++
        [⟨stateP.nextNotifId, post1.author, 1, "commented on your post",
          some "post", some post1.id,
          some [("comment_id", toString stateP.nextCommentId),
            ("post_id", toString post1.id)],
          false, stateP.now⟩] :=
  ⟨⟨by decide, by decide, by decide, by decide⟩,
    (C4_create_comment_validation_and_notification stateP 1 post1 " "
      (by decide)).1 (by decide),
    ((C4_create_comment_validation_and_notification stateP 1 post1 "Nice"
      (by decide)).2 (by decide)).2.2 (by decide)⟩

end SocialMedia

namespace SocialMedia

/-- C5: the feed of a user is exactly the set of posts whose author
the user follows (a permutation of that filter of the post table),
ordered newest first (`created_at` descending); consequently it
contains no post by an unfollowed author, and whenever the user does
not follow themself — which the API guarantees — none of their own
posts. -/
theorem C5_feed_posts_of_followed_newest_first (s : St) (u : Nat) :
    (feed s u).Perm (s.posts.filter (fun p => s.follows.contains (u, p.author))) ∧
    List.Sorted postDescLE (feed s u) ∧
    (∀ p ∈ feed s u, (u, p.author) ∈ s.follows) ∧
    ((u, u) ∉ s.follows → ∀ p ∈ feed s u, p.author ≠ u) := by
  have hmem : ∀ p ∈ feed s u, (u, p.author) ∈ s.follows := by
    intro p hp
    have h1 : p ∈ s.posts.filter (fun p => s.follows.contains (u, p.author)) := by
      simpa [feed] using hp
    simpa using (List.mem_filter.mp h1).2
  refine ⟨?_, ?_, hmem, ?_⟩
  · simp only [feed]
    exact List.perm_insertionSort _ _
  · simp only [feed]
    exact List.sorted_insertionSort _ _
  · intro hu p hp heq
    exact hu (heq ▸ hmem p hp)

/-- Posts by users 2 and 3 at distinct creation times. -/
def postA : Post := { id := 11, author := 2, title := "A", content := "a", createdAt := 1 }

def postB : Post := { id := 12, author := 3, title := "B", content := "b", createdAt := 4 }

def postC : Post := { id := 13, author := 2, title := "C", content := "c", createdAt := 9 }

/-- A state where user 1 follows user 2 only, with posts by users 2
and 3 in the store. -/
def stateF : St :=
  { users := [1, 2, 3], follows := [(1, 2)], posts := [postA, postB, postC],
    comments := [], likes := [], notifications := [], nextNotifId := 0,
    nextCommentId := 0, now := 7 }

/-- Witness for C5 at `stateF`: user 1 has no self-follow, so their
feed holds no post of their own, and it is sorted newest first. -/
theorem C5_feed_posts_of_followed_newest_first_witness :
    (((1, 1) : Nat × Nat) ∉ stateF.follows) ∧
    (∀ p ∈ feed stateF 1, p.author ≠ 1) ∧
    List.Sorted postDescLE (feed stateF 1) :=
  ⟨by decide,
    (C5_feed_posts_of_followed_newest_first stateF 1).2.2.2 (by decide),
    (C5_feed_posts_of_followed_newest_first stateF 1).2.1⟩

/-- C7: updating or deleting a post or comment succeeds only for the
resource's author: an anonymous requester is rejected with 401
(authentication required) and an authenticated requester other than
the author with 403 (forbidden), and in every such failure the
state — in particular the resource — is unchanged. -/
theorem C7_only_author_may_update_or_delete (s : St) (pid cid : Nat)
    (p : Post) (c : Comment)
    (hp : s.posts.find? (fun q => q.id == pid) = some p)
    (hc : s.comments.find? (fun d => d.id == cid) = some c)
    (title content : String) :
    updatePost s none pid title content =
      (⟨401, "Authentication credentials were not provided."⟩, s) ∧
    deletePost s none pid =
      (⟨401, "Authentication credentials were not provided."⟩, s) ∧
    updateComment s none cid content =
      (⟨401, "Authentication credentials were not provided."⟩, s) ∧
    deleteComment s none cid =
      (⟨401, "Authentication credentials were not provided."⟩, s) ∧
    (∀ r : Nat, r ≠ p.author →
      updatePost s (some r) pid title content =
        (⟨403, "You can only modify content that you created."⟩, s) ∧
      deletePost s (some r) pid =
        (⟨403, "You can only modify content that you created."⟩, s)) ∧
    (∀ r : Nat, r ≠ c.author →
      updateComment s (some r) cid content =
        (⟨403, "You can only modify content that you created."⟩, s) ∧
      deleteComment s (some r) cid =
        (⟨403, "You can only modify content that you created."⟩, s)) := by
  refine ⟨?_, ?_, ?_, ?_, ?_, ?_⟩
  · simp [updatePost, isAuthenticatedOrReadOnly]
  · simp [deletePost, isAuthenticatedOrReadOnly]
  · simp [updateComment, isAuthenticatedOrReadOnly]
  · simp [deleteComment, isAuthenticatedOrReadOnly]
  · intro r hr
    have hr2 : ¬ p.author = r := fun h => hr h.symm
    exact ⟨by simp [updatePost, isAuthenticatedOrReadOnly, hp, isOwnerOrReadOnly, hr2],
      by simp [deletePost, isAuthenticatedOrReadOnly, hp, isOwnerOrReadOnly, hr2]⟩
  · intro r hr
    have hr2 : ¬ c.author = r := fun h => hr h.symm
    exact ⟨by simp [updateComment, isAuthenticatedOrReadOnly, hc, isOwnerOrReadOnly, hr2],
      by simp [deleteComment, isAuthenticatedOrReadOnly, hc, isOwnerOrReadOnly, hr2]⟩

/-- A comment by user 2 on `post1`. -/
def comment1 : Comment :=
  { id := 20, postId := 10, author := 2, content := "First", createdAt := 6 }

/-- `stateP` with `comment1` in the comment store. -/
def stateC : St := { stateP with comments := [comment1] }

/-- Witness for C7 at `stateC`: user 1 is neither the post's nor the
comment's author and is rejected, as is an anonymous requester. -/
theorem C7_only_author_may_update_or_delete_witness :
    (stateC.posts.find? (fun q => q.id == 10) = some post1 ∧
      stateC.comments.find? (fun d => d.id == 20) = some comment1 ∧
      (1 : Nat) ≠ post1.author ∧ (1 : Nat) ≠ comment1.author) ∧
    updatePost stateC none 10 "T" "C" =
      (⟨401, "Authentication credentials were not provided."⟩, stateC) ∧
    updatePost stateC (some 1) 10 "T" "C" =
      (⟨403, "You can only modify content that you created."⟩, stateC) ∧
    deleteComment stateC (some 1) 20 =
      (⟨403, "You can only modify content that you created."⟩, stateC) :=
  ⟨⟨by decide, by decide, by decide, by decide⟩,
    (C7_only_author_may_update_or_delete stateC 10 20 post1 comment1
      (by decide) (by decide) "T" "C").1,
    ((C7_only_author_may_update_or_delete stateC 10 20 post1 comment1
      (by decide) (by decide) "T" "C").2.2.2.2.1 1 (by decide)).1,
    ((C7_only_author_may_update_or_delete stateC 10 20 post1 comment1
      (by decide) (by decide) "T" "C").2.2.2.2.2 1 (by decide)).2⟩

end SocialMedia

namespace SocialMedia

/-- C8: the notification list for a user is exactly the set of
notifications whose recipient is that user (a permutation of that
filter), ordered unread first and, within equal read state, by
timestamp descending (`Sorted notifLE`); and the `unread_count`
metadata equals the number of unread notifications in the returned
list. -/
theorem C8_notification_list_for_user (s : St) (u : Nat) :
    (list_for s u).Perm (s.notifications.filter (fun n => n.recipient == u)) ∧
    (∀ n ∈ list_for s u, n.recipient = u) ∧
    List.Sorted notifLE (list_for s u) ∧
    unread_count s u = (list_for s u).countP (fun n => !n.is_read) := by
  have hperm : (list_for s u).Perm
      (s.notifications.filter (fun n => n.recipient == u)) := by
    simp only [list_for]
    exact List.perm_insertionSort _ _
  refine ⟨hperm, ?_, ?_, ?_⟩
  · intro n hn
    have h1 : n ∈ s.notifications.filter (fun n => n.recipient == u) :=
      hperm.mem_iff.mp hn
    simpa using (List.mem_filter.mp h1).2
  · simp only [list_for]
    exact List.sorted_insertionSort _ _
  · rw [hperm.countP_eq]
    rw [unread_count, List.countP_eq_length_filter, List.filter_filter]
    have hpred : (fun n : Notification => n.recipient == u && n.is_read == false)
        = (fun n : Notification => !n.is_read && (n.recipient == u)) := by
      funext n
      cases h : n.is_read <;> simp [h, Bool.and_comm]
    rw [hpred]

/-- C9: marking a notification read fails with 404 when no
notification with that pk belongs to the requesting user (in
particular when its recipient is someone else), leaving the state
unchanged; when it does belong to the user, the call returns 200 and
replaces the store by its image under `setRead`, which flips
`is_read` to true on the matching row while preserving all its other
fields and leaving every non-matching row entirely unchanged; a
repeated call returns 200 with the state unchanged (idempotence). -/
theorem C9_mark_read_scoped_frame_idempotent (s : St) (u pk : Nat) :
    ((∀ m ∈ s.notifications, ¬(m.id = pk ∧ m.recipient = u)) →
      markRead s u pk = (⟨404, "Not found."⟩, s)) ∧
    ((∃ m ∈ s.notifications, m.id = pk ∧ m.recipient = u) →
      (markRead s u pk).1.status = 200 ∧
      (markRead s u pk).2.notifications = s.notifications.map (setRead u pk) ∧
      (∀ m : Notification,
        (¬(m.id = pk ∧ m.recipient = u) → setRead u pk m = m) ∧
        (m.id = pk ∧ m.recipient = u →
          (setRead u pk m).is_read = true ∧
          (setRead u pk m).id = m.id ∧
          (setRead u pk m).recipient = m.recipient ∧
          (setRead u pk m).actor = m.actor ∧
          (setRead u pk m).verb = m.verb ∧
          (setRead u pk m).contentType = m.contentType ∧
          (setRead u pk m).objectId = m.objectId ∧
          (setRead u pk m).metadata = m.metadata ∧
          (setRead u pk m).timestamp = m.timestamp)) ∧
      markRead (markRead s u pk).2 u pk = (⟨200, "OK"⟩, (markRead s u pk).2)) := by
  constructor
  · intro h
    have hnone : s.notifications.find? (markReadPred u pk) = none :=
      List.find?_eq_none.mpr (fun x hx => by simpa [markReadPred] using h x hx)
    simp [markRead, hnone]
  · intro hex
    have hsome : (s.notifications.find? (markReadPred u pk)).isSome := by
      refine List.find?_isSome.mpr ?_
      obtain ⟨m, hm, h1, h2⟩ := hex
      exact ⟨m, hm, by simp [markReadPred, h1, h2]⟩
    obtain ⟨n0, hn0⟩ := Option.isSome_iff_exists.mp hsome
    have e : markRead s u pk =
        (⟨200, "OK"⟩,
          { s with notifications := s.notifications.map (setRead u pk) }) := by
      simp [markRead, hn0]
    have hpf : ∀ x, markReadPred u pk (setRead u pk x) = markReadPred u pk x := by
      intro x
      by_cases hb : markReadPred u pk x
      · have h1 : setRead u pk x = { x with is_read := true } := by
          simp [setRead, hb]
        rw [h1]
        rfl
      · simp [setRead, hb]
    have hff : ∀ x, setRead u pk (setRead u pk x) = setRead u pk x := by
      intro x
      by_cases hb : markReadPred u pk x
      · have h1 : setRead u pk x = { x with is_read := true } := by
          simp [setRead, hb]
        have h2 : markReadPred u pk { x with is_read := true } = true := by
          simpa [markReadPred] using hb
        rw [h1]
        simp [setRead, h2]
      · have h1 : setRead u pk x = x := by simp [setRead, hb]
        rw [h1, h1]
    refine ⟨by rw [e], by rw [e], ?_, ?_⟩
    · intro m
      constructor
      · intro hnm
        have hb : markReadPred u pk m = false := by
          simpa [markReadPred] using hnm
        simp [setRead, hb]
      · intro hm
        have hb : markReadPred u pk m = true := by
          simp [markReadPred, hm.1, hm.2]
        simp [setRead, hb]
    · rw [e]
      have hfind2 : (s.notifications.map (setRead u pk)).find? (markReadPred u pk) =
          some (setRead u pk n0) := by
        rw [List.find?_map]
        have : (markReadPred u pk ∘ setRead u pk) = markReadPred u pk := by
          funext x
          exact hpf x
        rw [this, hn0]
        rfl
      have hmm : (s.notifications.map (setRead u pk)).map (setRead u pk) =
          s.notifications.map (setRead u pk) := by
        rw [List.map_map]
        have : (setRead u pk ∘ setRead u pk) = setRead u pk := by
          funext x
          exact hff x
        rw [this]
      simp [markRead, hfind2, hmm]

/-- A notification to user 1 from user 2. -/
def notif1 : Notification :=
  { id := 5, recipient := 1, actor := 2, verb := "liked your post",
    contentType := some "post", objectId := some 10, metadata := none,
    is_read := false, timestamp := 3 }

/-- A state whose notification store holds `notif1`. -/
def stateN : St := { state0 with notifications := [notif1] }

/-- Witness for C9 at `stateN`: user 1 can mark notification 5 read;
user 3, to whom it does not belong, gets a 404 and no state change. -/
theorem C9_mark_read_scoped_frame_idempotent_witness :
    ((∃ m ∈ stateN.notifications, m.id = 5 ∧ m.recipient = 1) ∧
      (∀ m ∈ stateN.notifications, ¬(m.id = 5 ∧ m.recipient = 3))) ∧
    (markRead stateN 1 5).1.status = 200 ∧
    markRead stateN 3 5 = (⟨404, "Not found."⟩, stateN) :=
  ⟨⟨by decide, by decide⟩,
    ((C9_mark_read_scoped_frame_idempotent stateN 1 5).2 (by decide)).1,
    (C9_mark_read_scoped_frame_idempotent stateN 3 5).1 (by decide)⟩

end SocialMedia
